import Mathlib

/-!
A shallow embedding of the process-control core of this FreeNOS kernel:
the system-call dispatcher `ProcessCtlHandler` from
`src/kernel/API/ProcessCtl.cpp`, the interrupt event helper
`interruptNotify`, and the `IRQ_REG` macro from
`src/lib/libarch/arm/ARMCore.h`.  The `Process` and `ProcessManager`
classes are not part of the shown sources; their operations are modelled
from the specification (each such definition says so in its doc comment).
Machine words are modelled as `Nat`; user memory written by the kernel is
modelled as an append-only log of (address, payload) records.
-/

/-- Process identifiers, a machine word in the source (`ProcessID`). -/
abbrev ProcessID := Nat

/-- Modelled from the spec: the sentinel "self" process ID used by the
dispatcher to denote the calling process (`SELF` in the source headers,
which are not shown).  Any fixed value outside the range of allocated IDs
works; we use the all-ones 32-bit word. -/
def SELF : ProcessID := 4294967295

/-- Modelled from the spec: capacity of the process table
(`create` "fails only if process-table capacity is exhausted").
The concrete bound is a configuration constant not shown in the sources. -/
def MAX_PROCS : Nat := 1024

/-- Process scheduling states.  The shown dispatcher mentions only
`Process::Waiting` and `Process::Sleeping`; the remaining members are
modelled from the spec's state machine.  The spec's "Running" is
represented as being the current process (its own gloss: "current on some
core", and "Ready-turned-Running"), so the table state of the current
process stays `Ready` while it executes. -/
inductive ProcState where
  | Ready
  | Waiting
  | Sleeping
  | Stopped
deriving DecidableEq, Repr, Inhabited

/-- Modelled from the spec: the closed set of `ProcessEvent` types; only
the interrupt kind appears in the shown sources (`InterruptEvent`). -/
inductive ProcessEventType where
  | InterruptEvent
deriving DecidableEq, Repr

/-- A `ProcessEvent`: type plus numeric payload (`ProcessEvent.h`,
modelled from the spec's data model). -/
structure ProcessEvent where
  type : ProcessEventType
  number : Nat
deriving DecidableEq, Repr

/-- Modelled from the spec: the per-task control block (`Process`).
`wait` is the single wait field that `setWait`/`getWait` access in
`ProcessCtl.cpp`: it holds the awaited process ID while Waiting and is
overwritten with the exit status when the awaited process is removed
(which is why the dispatcher's WaitPID arm can return `getWait()` as the
exit status).  `cpuState` abstracts the saved register snapshot as the
program counter it would resume at. -/
structure Process where
  id : ProcessID
  parent : ProcessID
  state : ProcState
  wait : Option Nat
  sleepTimer : Option Nat
  wakeups : Nat
  userStack : Nat
  kernelStack : Nat
  pageDirectory : Nat
  cpuState : Nat
  events : List ProcessEvent
deriving DecidableEq, Repr, Inhabited

/-- The `getWait()` accessor of `Process`: the raw value of the wait
field (0 if never set), which after release from Waiting holds the exit
status. -/
def Process.getWait (p : Process) : Nat :=
  p.wait.getD 0

/-- Modelled from the spec: result codes of `Process` member functions;
`sleep` returns `Success` when the process was actually put to sleep and
`WakeupPending` when a pending wakeup made it stay Ready. -/
inductive ProcResult where
  | Success
  | WakeupPending
deriving DecidableEq, Repr

/-- Modelled from the spec: `Process::wakeup`, called by the dispatcher's
Resume arm with the comment "increment wakeup counter and set process
ready". -/
def Process.wakeup (p : Process) : Process :=
  { p with wakeups := p.wakeups + 1, state := ProcState.Ready }

/-- Modelled from the spec: `Process::sleep`.  "EnterSleep first checks
the pending-wakeup counter — if a wakeup already arrived, the process
stays Ready and does not sleep at all"; the pending wakeups are consumed.
Otherwise the process records the deadline and becomes Sleeping. -/
def Process.sleep (p : Process) (deadline : Nat) : ProcResult × Process :=
  if p.wakeups > 0 then
    (ProcResult.WakeupPending, { p with wakeups := 0 })
  else
    (ProcResult.Success, { p with state := ProcState.Sleeping, sleepTimer := some deadline })

/-- Modelled from the spec: `Process::setSleepTimer`, recording the sleep
deadline read from the caller-supplied `Timer::Info` buffer (abstracted
by its address/value). -/
def Process.setSleepTimer (p : Process) (deadline : Nat) : Process :=
  { p with sleepTimer := some deadline }

/-- The `ProcessInfo` snapshot struct copied out by the InfoPID arm,
field for field as written in `ProcessCtl.cpp` lines 97-104. -/
structure ProcessInfo where
  id : ProcessID
  state : ProcState
  userStack : Nat
  kernelStack : Nat
  pageDirectory : Nat
  parent : ProcessID
deriving DecidableEq, Repr

/-- A record of one write the kernel performs into user memory:
either a `ProcessInfo` snapshot (InfoPID) or a `Timer::Info` value
(InfoTimer). -/
inductive MemWrite where
  | info (i : ProcessInfo)
  | timerInfo (t : Nat)
deriving DecidableEq, Repr

/-- The kernel state visible to the dispatcher: the process table and
current-process pointer of the `ProcessManager`, the fresh-ID counter,
a count of `schedule()` invocations, the interrupt-vector hooks and
controller commands issued through `Kernel::instance`, the optional
timer device, and the log of writes into user memory. -/
structure KernelState where
  procs : List Process
  currentID : ProcessID
  nextID : ProcessID
  scheduleCount : Nat
  hooks : List (Nat × ProcessID)
  irqCtl : List (Nat × Bool)
  timer : Option Nat
  writes : List (Nat × MemWrite)
deriving DecidableEq, Repr, Inhabited

/-- Modelled from the spec: `ProcessManager::get(id)` — "the process for
`id`, or not found if the ID is stale/unknown/out of range". -/
def ProcessManager.get (σ : KernelState) (id : ProcessID) : Option Process :=
  σ.procs.find? (fun q => q.id = id)

/-- Modelled from the spec: `ProcessManager::current()` — the process
mapped to the calling core, "never null once initialization is
complete"; well-formed states guarantee the lookup succeeds. -/
def ProcessManager.current (σ : KernelState) : Process :=
  (ProcessManager.get σ σ.currentID).getD default

/-- Update the table entry with the given ID in place (the shallow
counterpart of mutating a `Process *`). -/
def updateProc (σ : KernelState) (id : ProcessID) (f : Process → Process) : KernelState :=
  { σ with procs := σ.procs.map (fun q => if q.id = id then f q else q) }

/-- Modelled from the spec: `ProcessManager::create(entryPoint, map)` —
allocates a new process with a fresh monotonically-assigned ID, seeds its
initial CPU state at the entry point, initial state Ready; fails (returns
null) only when the process table is full. -/
def ProcessManager.create (σ : KernelState) (entry : Nat) : Option (Process × KernelState) :=
  if σ.procs.length ≥ MAX_PROCS then
    none
  else
    let newP : Process :=
      { id := σ.nextID, parent := 0, state := ProcState.Ready, wait := none,
        sleepTimer := none, wakeups := 0, userStack := 0, kernelStack := 0,
        pageDirectory := 0, cpuState := entry, events := [] }
    some (newP, { σ with procs := σ.procs ++ [newP], nextID := σ.nextID + 1 })

/-- Modelled from the spec: `ProcessManager::remove(process, exitStatus)`
— releases the table slot and, for every process waiting on the removed
one, records the exit status in its wait field and moves it from Waiting
to Ready. -/
def ProcessManager.remove (σ : KernelState) (targetId : ProcessID) (exitStatus : Nat) : KernelState :=
  { σ with procs :=
      (σ.procs.filter (fun q => q.id ≠ targetId)).map (fun q =>
        if q.state = ProcState.Waiting ∧ q.wait = some targetId then
          { q with state := ProcState.Ready, wait := some exitStatus }
        else q) }

/-- The process table rotated to start just after the current process,
the scan order of the round-robin policy. -/
def rotatedTable (σ : KernelState) : List Process :=
  match σ.procs.findIdx? (fun q => q.id = σ.currentID) with
  | some i => σ.procs.drop (i + 1) ++ σ.procs.take (i + 1)
  | none => σ.procs

/-- Modelled from the spec: the selection step of
`ProcessManager::schedule()` — round-robin over the Ready set: the first
Ready process at or after the position following the current one; `none`
when no process is Ready (the idle path). -/
def scheduleSelect (σ : KernelState) : Option ProcessID :=
  ((rotatedTable σ).find? (fun q => q.state = ProcState.Ready)).map (fun q => q.id)

/-- Modelled from the spec: `ProcessManager::schedule()` — switches the
current-process pointer to the selected Ready process (or stays on the
idle path when none is Ready) and is counted as one scheduler
invocation. -/
def ProcessManager.schedule (σ : KernelState) : KernelState :=
  { σ with currentID := (scheduleSelect σ).getD σ.currentID,
           scheduleCount := σ.scheduleCount + 1 }

/-- Well-formedness of a kernel state: process IDs are pairwise distinct
and the current-process pointer resolves (the spec's "never null once
initialization is complete"). -/
def WF (σ : KernelState) : Prop :=
  (σ.procs.map (fun q => q.id)).Nodup ∧ (ProcessManager.get σ σ.currentID).isSome

instance (σ : KernelState) : Decidable (WF σ) := by
  unfold WF; infer_instance

/-- The ARM `CPUState` register snapshot
(`src/lib/libarch/arm/ARMCore.h` lines 215-223), registers as naturals. -/
structure CPUState where
  cpsr : Nat
  sp : Nat
  lr : Nat
  r0 : Nat
  r1 : Nat
  r2 : Nat
  r3 : Nat
  r4 : Nat
  r5 : Nat
  r6 : Nat
  r7 : Nat
  r8 : Nat
  r9 : Nat
  r10 : Nat
  r11 : Nat
  r12 : Nat
  pc : Nat
deriving DecidableEq, Repr, Inhabited

/-- The `IRQ_REG` macro of `src/lib/libarch/arm/ARMCore.h` lines 43-44:
it expands to the constant `0` on ARM (its own comment: "This does not
work for ARM. See BCM2835Interrupt instead."). -/
def IRQ_REG (_state : CPUState) : Nat :=
  0

/-- The `IRQ` vector-remap macro of `src/lib/libarch/arm/ARMCore.h`
line 53: the identity on ARM. -/
def IRQ (vector : Nat) : Nat :=
  vector

/-- Modelled from the spec: `Process::raiseEvent` appends the event to
the process's pending-event queue in raise order. -/
def Process.raiseEvent (p : Process) (event : ProcessEvent) : Process :=
  { p with events := p.events ++ [event] }

/-- The `interruptNotify` handler of `src/kernel/API/ProcessCtl.cpp`
lines 26-34: builds a `ProcessEvent` with type `InterruptEvent` and
number `IRQ_REG(st)` and raises it on the subscribed process. -/
def interruptNotify (st : CPUState) (p : Process) : Process :=
  Process.raiseEvent p { type := ProcessEventType.InterruptEvent, number := IRQ_REG st }

/-- The `ProcessOperation` codes handled by the dispatcher switch in
`src/kernel/API/ProcessCtl.cpp`. -/
inductive ProcessOperation where
  | Spawn
  | KillPID
  | GetPID
  | GetParent
  | Schedule
  | Resume
  | WatchIRQ
  | EnableIRQ
  | DisableIRQ
  | InfoPID
  | WaitPID
  | InfoTimer
  | WaitTimer
  | EnterSleep
  | SetStack
deriving DecidableEq, Repr

/-- Result of one dispatcher invocation as observed by the calling
process (`API::Result`, a machine word in the source).  `Suspended` is
modelled from the spec: the WaitPID arm's `return` executes only at
resumption (the trap frame is abandoned and the eventual value — the
caller's wait field — is patched into the return register), so the
invocation itself yields no immediate value. -/
inductive APIResult where
  | Success
  | NotFound
  | Value (v : Nat)
  | Suspended
deriving DecidableEq, Repr

/-- Outcome of the target-resolution prologue of the dispatcher
(`ProcessCtl.cpp` lines 49-56). -/
inductive TargetLookup where
  | notFound
  | target (p : Option Process)
deriving DecidableEq, Repr

/-- The target-resolution prologue of `ProcessCtlHandler`
(`ProcessCtl.cpp` lines 49-56): for every action except `GetPID` and
`Spawn`, resolve `SELF` to the current process or look the ID up in the
process table; an unknown ID makes the whole call fail. -/
def resolveTarget (σ : KernelState) (procID : ProcessID) (action : ProcessOperation) : TargetLookup :=
  if action ≠ ProcessOperation.GetPID ∧ action ≠ ProcessOperation.Spawn then
    if procID = SELF then
      TargetLookup.target (some (ProcessManager.current σ))
    else
      match ProcessManager.get σ procID with
      | some p => TargetLookup.target (some p)
      | none => TargetLookup.notFound
  else
    TargetLookup.target none

/-- The `ProcessInfo` snapshot written by the InfoPID arm
(`ProcessCtl.cpp` lines 97-104), field for field. -/
def infoSnapshot (p : Process) : ProcessInfo :=
  { id := p.id, state := p.state, userStack := p.userStack,
    kernelStack := p.kernelStack, pageDirectory := p.pageDirectory,
    parent := p.parent }

/-- The switch body of `ProcessCtlHandler` (`ProcessCtl.cpp` lines
58-136), one arm per operation, acting on the resolved target `proc`.
The result is `none` exactly when the C code dereferences a null
`Process` pointer (the unchecked `create` result in the Spawn arm). -/
def dispatchArm (σ : KernelState) (action : ProcessOperation) (proc : Process) (addr : Nat) :
    Option (APIResult × KernelState) :=
  match action with
  | ProcessOperation.Spawn =>
      match ProcessManager.create σ addr with
      | none => none
      | some (newP, σ₁) =>
          let σ₂ := updateProc σ₁ newP.id
            (fun q => { q with parent := (ProcessManager.current σ₁).id })
          some (APIResult.Value newP.id, σ₂)
  | ProcessOperation.KillPID =>
      some (APIResult.Success, ProcessManager.schedule (ProcessManager.remove σ proc.id addr))
  | ProcessOperation.GetPID =>
      some (APIResult.Value (ProcessManager.current σ).id, σ)
  | ProcessOperation.GetParent =>
      some (APIResult.Value (ProcessManager.current σ).parent, σ)
  | ProcessOperation.Schedule =>
      some (APIResult.Success, ProcessManager.schedule σ)
  | ProcessOperation.Resume =>
      some (APIResult.Success, updateProc σ proc.id Process.wakeup)
  | ProcessOperation.WatchIRQ =>
      some (APIResult.Success, { σ with hooks := σ.hooks ++ [(IRQ addr, proc.id)] })
  | ProcessOperation.EnableIRQ =>
      some (APIResult.Success, { σ with irqCtl := σ.irqCtl ++ [(addr, true)] })
  | ProcessOperation.DisableIRQ =>
      some (APIResult.Success, { σ with irqCtl := σ.irqCtl ++ [(addr, false)] })
  | ProcessOperation.InfoPID =>
      some (APIResult.Success, { σ with writes := σ.writes ++ [(addr, MemWrite.info (infoSnapshot proc))] })
  | ProcessOperation.WaitPID =>
      let σ₁ := updateProc σ σ.currentID
        (fun c => { c with wait := some proc.id, state := ProcState.Waiting })
      some (APIResult.Suspended, ProcessManager.schedule σ₁)
  | ProcessOperation.InfoTimer =>
      match σ.timer with
      | none => some (APIResult.NotFound, σ)
      | some t => some (APIResult.Success, { σ with writes := σ.writes ++ [(addr, MemWrite.timerInfo t)] })
  | ProcessOperation.WaitTimer =>
      let σ₁ := updateProc σ σ.currentID
        (fun c => Process.setSleepTimer { c with state := ProcState.Sleeping } addr)
      some (APIResult.Success, ProcessManager.schedule σ₁)
  | ProcessOperation.EnterSleep =>
      match (ProcessManager.current σ).sleep addr with
      | (ProcResult.Success, c) =>
          some (APIResult.Success, ProcessManager.schedule (updateProc σ σ.currentID (fun _ => c)))
      | (ProcResult.WakeupPending, c) =>
          some (APIResult.Success, updateProc σ σ.currentID (fun _ => c))
  | ProcessOperation.SetStack =>
      some (APIResult.Success, updateProc σ proc.id (fun q => { q with userStack := addr }))

/-- The dispatcher entry point `ProcessCtlHandler(procID, action, addr,
output)` of `src/kernel/API/ProcessCtl.cpp` lines 36-137: resolve the
target (NotFound short-circuits with no state change), then run the
operation arm.  `output`, the fourth argument, is never used by the C
function and is correspondingly ignored here. -/
def ProcessCtlHandler (σ : KernelState) (procID : ProcessID) (action : ProcessOperation)
    (addr : Nat) (output : Nat) : Option (APIResult × KernelState) :=
  match resolveTarget σ procID action with
  | TargetLookup.notFound => some (APIResult.NotFound, σ)
  | TargetLookup.target proc? => dispatchArm σ action (proc?.getD default) addr

/-! Helper lemmas about the process-table operations. -/

theorem get_eq_some_id {σ : KernelState} {j : ProcessID} {p : Process}
    (h : ProcessManager.get σ j = some p) : p.id = j := by
  have := List.find?_some h
  simpa using this

theorem mem_of_get {σ : KernelState} {j : ProcessID} {p : Process}
    (h : ProcessManager.get σ j = some p) : p ∈ σ.procs :=
  List.mem_of_find?_eq_some h

theorem get_updateProc (σ : KernelState) (i j : ProcessID) (f : Process → Process)
    (hf : ∀ q : Process, q.id = i → (f q).id = q.id) :
    ProcessManager.get (updateProc σ i f) j =
      (ProcessManager.get σ j).map (fun q => if q.id = i then f q else q) := by
  unfold ProcessManager.get updateProc
  rw [List.find?_map]
  have hcomp :
      ((fun q : Process => decide (q.id = j)) ∘ fun q => if q.id = i then f q else q)
        = fun q : Process => decide (q.id = j) := by
    funext q
    by_cases hq : q.id = i
    · simp [Function.comp, hq, hf q hq]
    · simp [Function.comp, hq]
  rw [hcomp]

theorem get_schedule (σ : KernelState) (j : ProcessID) :
    ProcessManager.get (ProcessManager.schedule σ) j = ProcessManager.get σ j :=
  rfl

theorem get_remove (σ : KernelState) (t : ProcessID) (s : Nat) (j : ProcessID)
    (hjt : j ≠ t) :
    ProcessManager.get (ProcessManager.remove σ t s) j =
      (ProcessManager.get σ j).map (fun q =>
        if q.state = ProcState.Waiting ∧ q.wait = some t then
          { q with state := ProcState.Ready, wait := some s }
        else q) := by
  unfold ProcessManager.get ProcessManager.remove
  rw [List.find?_map]
  have hcomp :
      ((fun q : Process => decide (q.id = j)) ∘ (fun q =>
        if q.state = ProcState.Waiting ∧ q.wait = some t then
          { q with state := ProcState.Ready, wait := some s }
        else q)) = fun q : Process => decide (q.id = j) := by
    funext q
    by_cases hq : q.state = ProcState.Waiting ∧ q.wait = some t
    · simp [Function.comp, hq]
    · simp [Function.comp, hq]
  rw [hcomp, List.find?_filter]
  have hpred : (fun a : Process => decide ((!decide (a.id = t)) = true ∧ decide (a.id = j) = true))
      = fun q : Process => decide (q.id = j) := by
    funext q
    by_cases hq : q.id = j
    · subst hq
      simp [hjt]
    · simp [hq]
  simp only [ne_eq, decide_not] at hpred ⊢
  rw [hpred]

theorem mem_rotatedTable {σ : KernelState} {q : Process}
    (h : q ∈ rotatedTable σ) : q ∈ σ.procs := by
  unfold rotatedTable at h
  cases hidx : σ.procs.findIdx? (fun r => r.id = σ.currentID) with
  | none => rw [hidx] at h; exact h
  | some i =>
      rw [hidx] at h
      rcases List.mem_append.mp h with h1 | h1
      · exact List.mem_of_mem_drop h1
      · exact List.mem_of_mem_take h1

theorem scheduleSelect_ready {σ : KernelState} {j : ProcessID}
    (h : scheduleSelect σ = some j) :
    ∃ q ∈ σ.procs, q.state = ProcState.Ready ∧ q.id = j := by
  unfold scheduleSelect at h
  cases hf : (rotatedTable σ).find? (fun q => q.state = ProcState.Ready) with
  | none => rw [hf] at h; simp at h
  | some q =>
      rw [hf] at h
      simp only [Option.map_some'] at h
      refine ⟨q, mem_rotatedTable (List.mem_of_find?_eq_some hf), ?_, by injection h⟩
      have := List.find?_some hf
      simpa using this

theorem get_of_mem_nodup {σ : KernelState} {q : Process}
    (hnd : (σ.procs.map (fun r => r.id)).Nodup) (hq : q ∈ σ.procs) :
    ProcessManager.get σ q.id = some q := by
  have hsome : (σ.procs.find? (fun r => r.id = q.id)).isSome := by
    rw [List.find?_isSome]
    exact ⟨q, hq, by simp⟩
  rcases Option.isSome_iff_exists.mp hsome with ⟨r, hr⟩
  have hrid : r.id = q.id := by
    have := List.find?_some hr
    simpa using this
  have hrmem : r ∈ σ.procs := List.mem_of_find?_eq_some hr
  have : r = q := List.inj_on_of_nodup_map hnd hrmem hq hrid
  rw [ProcessManager.get, hr, this]

theorem scheduleSelect_not_waiting {σ : KernelState} {j : ProcessID} {c : Process}
    (hnd : (σ.procs.map (fun r => r.id)).Nodup)
    (hget : ProcessManager.get σ j = some c)
    (hw : c.state = ProcState.Waiting) :
    scheduleSelect σ ≠ some j := by
  intro hsel
  rcases scheduleSelect_ready hsel with ⟨q, hqmem, hqr, hqid⟩
  have hcid : c.id = j := get_eq_some_id hget
  have hcmem : c ∈ σ.procs := mem_of_get hget
  have : q = c := List.inj_on_of_nodup_map hnd hqmem hcmem (by rw [hqid, hcid])
  rw [this, hw] at hqr
  exact absurd hqr (by simp)

/-! Concrete example states used by witnesses and counterexamples. -/

/-- Example process 0 (the current process in the example state). -/
def pEx0 : Process :=
  { id := 0, parent := 0, state := ProcState.Ready, wait := none, sleepTimer := none,
    wakeups := 0, userStack := 10, kernelStack := 20, pageDirectory := 30,
    cpuState := 40, events := [] }

/-- Example process 1 (a plain Ready process). -/
def pEx1 : Process :=
  { pEx0 with id := 1 }

/-- Example process 2, blocked Waiting on process 1. -/
def pEx2 : Process :=
  { pEx0 with id := 2, state := ProcState.Waiting, wait := some 1 }

/-- Example kernel state: three processes, process 0 current, a timer
device present, no writes or hooks yet. -/
def σEx : KernelState :=
  { procs := [pEx0, pEx1, pEx2], currentID := 0, nextID := 3, scheduleCount := 0,
    hooks := [], irqCtl := [], timer := some 7, writes := [] }

/-- C10: the fourth dispatcher parameter `output` has no influence: two
invocations of `ProcessCtlHandler` that agree on the state, target
process ID, action and `addr` but differ in `output` produce the same
result code and the same resulting kernel state (including the log of
user-memory writes, so nothing is ever written through `output`). -/
theorem outputParameterIrrelevant (σ : KernelState) (procID : ProcessID)
    (action : ProcessOperation) (addr o₁ o₂ : Nat) :
    ProcessCtlHandler σ procID action addr o₁ = ProcessCtlHandler σ procID action addr o₂ :=
  rfl

/-- C2: for every operation other than Spawn and GetPID, a target ID that
is not the SELF sentinel and not in the process table makes the
dispatcher return NotFound with the kernel state unchanged (so no
operation-specific logic ran and nothing was written to any buffer),
covering in particular InfoPID on an unknown ID. -/
theorem unknownTargetReturnsNotFound (σ : KernelState) (procID : ProcessID)
    (action : ProcessOperation) (addr out : Nat)
    (hA : action ≠ ProcessOperation.Spawn) (hB : action ≠ ProcessOperation.GetPID)
    (hS : procID ≠ SELF) (hget : ProcessManager.get σ procID = none) :
    ProcessCtlHandler σ procID action addr out = some (APIResult.NotFound, σ) := by
  simp [ProcessCtlHandler, resolveTarget, hA, hB, hS, hget]

/-- Witness for C2: InfoPID on the unknown ID 5 in the example state
returns NotFound and leaves the state (hence every buffer) untouched. -/
theorem unknownTargetReturnsNotFoundWitness :
    ProcessCtlHandler σEx 5 ProcessOperation.InfoPID 100 200 = some (APIResult.NotFound, σEx) :=
  unknownTargetReturnsNotFound σEx 5 ProcessOperation.InfoPID 100 200
    (by decide) (by decide) (by decide) (by decide)

/-- C9: SetStack on an existing explicit target overwrites only that
process's user-stack pointer with `arg` and returns Success; the single
equation shows every other field of every process and every other kernel
component (current pointer, ID counter, scheduler count, hooks,
controller commands, timer, write log) unchanged, and the final conjunct
exhibits the updated target. -/
theorem setStackFrameEffect (σ : KernelState) (t : ProcessID) (pt : Process)
    (addr out : Nat) (hts : t ≠ SELF) (hget : ProcessManager.get σ t = some pt) :
    ProcessCtlHandler σ t ProcessOperation.SetStack addr out =
      some (APIResult.Success,
        { σ with procs := σ.procs.map (fun q =>
            if q.id = t then { q with userStack := addr } else q) }) ∧
    ProcessManager.get (updateProc σ t (fun q => { q with userStack := addr })) t =
      some { pt with userStack := addr } := by
  have hid : pt.id = t := get_eq_some_id hget
  constructor
  · simp [ProcessCtlHandler, resolveTarget, hts, hget, dispatchArm, updateProc, hid]
  · rw [get_updateProc σ t t (fun q => { q with userStack := addr }) (fun q _ => rfl), hget]
    simp [hid]

/-- Witness for C9: SetStack on process 1 of the example state changes
exactly its user-stack pointer to 77. -/
theorem setStackFrameEffectWitness :
    ProcessCtlHandler σEx 1 ProcessOperation.SetStack 77 0 =
      some (APIResult.Success,
        { σEx with procs := σEx.procs.map (fun q =>
            if q.id = 1 then { q with userStack := 77 } else q) }) ∧
    ProcessManager.get (updateProc σEx 1 (fun q => { q with userStack := 77 })) 1 =
      some { pEx1 with userStack := 77 } :=
  setStackFrameEffect σEx 1 pEx1 77 0 (by decide) (by decide)

/-- C6 counterexample: InfoPID on existing process 1 with third argument
`addr` = 100 and fourth argument `output` = 200 writes the snapshot at
address 100 and writes nothing at address 200 — contrary to the claim
that the snapshot goes to the fourth dispatch argument. -/
theorem infoPidWriteTargetCounterexample :
    (ProcessCtlHandler σEx 1 ProcessOperation.InfoPID 100 200).map
      (fun r => r.2.writes.filter (fun w => w.1 = 200)) = some [] ∧
    (ProcessCtlHandler σEx 1 ProcessOperation.InfoPID 100 200).map
      (fun r => r.2.writes.filter (fun w => w.1 = 100)) =
        some [(100, MemWrite.info (infoSnapshot pEx1))] := by
  decide

/-- C6 (amended): for an existing target, InfoPID writes the ProcessInfo
snapshot of the target (id, state, user stack, kernel stack, page
directory, parent) through the THIRD dispatch argument `addr` and
returns Success; the fourth argument is unused. -/
theorem infoPidWritesSnapshotToAddr (σ : KernelState) (t : ProcessID) (pt : Process)
    (addr out : Nat) (hts : t ≠ SELF) (hget : ProcessManager.get σ t = some pt) :
    ProcessCtlHandler σ t ProcessOperation.InfoPID addr out =
      some (APIResult.Success,
        { σ with writes := σ.writes ++ [(addr, MemWrite.info (infoSnapshot pt))] }) := by
  simp [ProcessCtlHandler, resolveTarget, hts, hget, dispatchArm]

/-- Witness for C6 (amended): InfoPID on process 1 in the example state
appends the snapshot of process 1 at address 100. -/
theorem infoPidWritesSnapshotToAddrWitness :
    ProcessCtlHandler σEx 1 ProcessOperation.InfoPID 100 200 =
      some (APIResult.Success,
        { σEx with writes := σEx.writes ++ [(100, MemWrite.info (infoSnapshot pEx1))] }) :=
  infoPidWritesSnapshotToAddr σEx 1 pEx1 100 200 (by decide) (by decide)

/-- Example CPU state as captured on an interrupt trap (concrete register
values; on ARM the snapshot does not carry the IRQ line number). -/
def stEx : CPUState :=
  { cpsr := 0, sp := 0, lr := 0, r0 := 0, r1 := 0, r2 := 0, r3 := 0, r4 := 0,
    r5 := 0, r6 := 0, r7 := 0, r8 := 0, r9 := 0, r10 := 0, r11 := 0, r12 := 0,
    pc := 1234 }

/-- C4 counterexample: when `interruptNotify` runs for a delivery of IRQ
line 5, the enqueued event's number is `IRQ_REG` of the captured state,
which is 0 on this ARM port — not 5, the line that actually fired. -/
theorem irqEventNumberCounterexample :
    (interruptNotify stEx pEx0).events =
      [{ type := ProcessEventType.InterruptEvent, number := 0 }] ∧ (0 : Nat) ≠ 5 := by
  decide

/-- C4 (amended): every event enqueued by `interruptNotify` has type
InterruptEvent and number equal to `IRQ_REG` of the captured CPU state,
and on this repository's ARM architecture `IRQ_REG` is the constant 0
(its header says it "does not work for ARM"), so the number does not
identify the IRQ line that fired. -/
theorem irqEventNumberIsIrqReg (st : CPUState) (p : Process) :
    (interruptNotify st p).events = p.events ++
      [{ type := ProcessEventType.InterruptEvent, number := IRQ_REG st }] ∧
    IRQ_REG st = 0 :=
  ⟨rfl, rfl⟩

/-- A kernel state whose process table is at full capacity. -/
def σFull : KernelState :=
  { procs := (List.range MAX_PROCS).map (fun i => { pEx0 with id := i }),
    currentID := 0, nextID := MAX_PROCS, scheduleCount := 0,
    hooks := [], irqCtl := [], timer := none, writes := [] }

/-- C3: with the process table full, `create` fails (returns null) and
the Spawn arm dereferences the null result unchecked
(`proc->setParent(...)` in `ProcessCtl.cpp` line 62), modelled as the
`none` outcome — no CapacityExceeded error is ever propagated to the
caller. -/
theorem spawnFullTableNullDereference :
    ProcessCtlHandler σFull 0 ProcessOperation.Spawn 7 0 = none := by
  have hlen : σFull.procs.length = MAX_PROCS := by simp [σFull]
  simp [ProcessCtlHandler, resolveTarget, dispatchArm, ProcessManager.create, hlen]

theorem find?_append_fresh (l : List Process) (x : Process) (j : ProcessID)
    (hfresh : ∀ q ∈ l, q.id ≠ j) (hx : x.id = j) :
    List.find? (fun q : Process => q.id = j) (l ++ [x]) = some x := by
  rw [List.find?_append]
  have h1 : l.find? (fun q : Process => q.id = j) = none := by
    rw [List.find?_eq_none]
    intro q hq
    simpa using hfresh q hq
  rw [h1]
  simp [List.find?_cons, hx]

theorem find?_append_found (l l2 : List Process) (j : ProcessID) (c : Process)
    (h : List.find? (fun q : Process => q.id = j) l = some c) :
    List.find? (fun q : Process => q.id = j) (l ++ l2) = some c := by
  rw [List.find?_append, h]
  rfl

/-- C7: a successful Spawn by the current process creates a new process
whose parent is the caller's ID, returns the new process's ID, and a
table lookup of that ID yields the new process (parent equal to the
creating process's ID, initial state Ready, CPU state seeded at the
entry point). -/
theorem spawnSetsParentAndReturnsId (σ : KernelState) (pid : ProcessID) (entry out : Nat)
    (hwf : WF σ) (hroom : σ.procs.length < MAX_PROCS)
    (hfresh : ∀ q ∈ σ.procs, q.id ≠ σ.nextID) :
    ∃ σ', ProcessCtlHandler σ pid ProcessOperation.Spawn entry out =
        some (APIResult.Value σ.nextID, σ') ∧
      ∃ newP, ProcessManager.get σ' σ.nextID = some newP ∧
        newP.parent = (ProcessManager.current σ).id ∧
        newP.id = σ.nextID ∧ newP.state = ProcState.Ready ∧ newP.cpuState = entry := by
  rcases Option.isSome_iff_exists.mp hwf.2 with ⟨c, hc⟩
  set newP0 : Process :=
    { id := σ.nextID, parent := 0, state := ProcState.Ready, wait := none,
      sleepTimer := none, wakeups := 0, userStack := 0, kernelStack := 0,
      pageDirectory := 0, cpuState := entry, events := [] } with hnewP0
  set σ1 : KernelState := { σ with procs := σ.procs ++ [newP0], nextID := σ.nextID + 1 } with hσ1
  have hcreate : ProcessManager.create σ entry = some (newP0, σ1) := by
    unfold ProcessManager.create
    rw [if_neg (not_le.mpr hroom)]
  have hcur1 : ProcessManager.get σ1 σ.currentID = some c := by
    unfold ProcessManager.get
    exact find?_append_found σ.procs [newP0] σ.currentID c hc
  have hcurid : (ProcessManager.current σ1).id = (ProcessManager.current σ).id := by
    unfold ProcessManager.current
    rw [hcur1]
    show c.id = _
    rw [hc]
    rfl
  refine ⟨updateProc σ1 newP0.id (fun q => { q with parent := (ProcessManager.current σ1).id }), ?_, ?_⟩
  · simp only [ProcessCtlHandler, resolveTarget, dispatchArm]
    simp [hcreate]
  · refine ⟨{ newP0 with parent := (ProcessManager.current σ1).id }, ?_, by simpa using hcurid, rfl, rfl, rfl⟩
    rw [get_updateProc σ1 newP0.id σ.nextID
          (fun q => { q with parent := (ProcessManager.current σ1).id }) (fun q _ => rfl)]
    have hget1 : ProcessManager.get σ1 σ.nextID = some newP0 := by
      unfold ProcessManager.get
      exact find?_append_fresh σ.procs newP0 σ.nextID hfresh rfl
    rw [hget1]
    simp

/-- Witness for C7: spawning from the example state returns the fresh ID
3 and the created process has the caller (process 0) as parent. -/
theorem spawnSetsParentAndReturnsIdWitness :
    ∃ σ', ProcessCtlHandler σEx 9 ProcessOperation.Spawn 555 0 =
        some (APIResult.Value 3, σ') ∧
      ∃ newP, ProcessManager.get σ' 3 = some newP ∧
        newP.parent = (ProcessManager.current σEx).id ∧
        newP.id = 3 ∧ newP.state = ProcState.Ready ∧ newP.cpuState = 555 :=
  spawnSetsParentAndReturnsId σEx 9 555 0 (by decide) (by decide) (by decide)

/-- C1: WaitPID on an existing target records the target ID in the
caller's wait field, puts the caller in the Waiting state and invokes the
scheduler; while Waiting the round-robin selection never picks the
caller, so it does not continue until the target is removed; and once
`remove(target, status)` runs, the caller is Ready and the value it
observes on resumption (`getWait()`, the WaitPID return value) is exactly
the exit status passed to remove. -/
theorem waitPidBlocksUntilRemove (σ : KernelState) (t : ProcessID) (pt : Process)
    (addr out status : Nat)
    (hwf : WF σ) (hts : t ≠ SELF) (hget : ProcessManager.get σ t = some pt)
    (hne : σ.currentID ≠ t) :
    ∃ σ₁,
      ProcessCtlHandler σ t ProcessOperation.WaitPID addr out = some (APIResult.Suspended, σ₁) ∧
      σ₁.scheduleCount = σ.scheduleCount + 1 ∧
      (∃ c, ProcessManager.get σ₁ σ.currentID = some c ∧
         c.state = ProcState.Waiting ∧ c.wait = some t) ∧
      (∀ τ : KernelState, (τ.procs.map (fun q => q.id)).Nodup →
         ∀ c, ProcessManager.get τ σ.currentID = some c → c.state = ProcState.Waiting →
         scheduleSelect τ ≠ some σ.currentID) ∧
      (∃ c', ProcessManager.get (ProcessManager.remove σ₁ t status) σ.currentID = some c' ∧
         c'.state = ProcState.Ready ∧ c'.wait = some status ∧ c'.getWait = status) := by
  rcases Option.isSome_iff_exists.mp hwf.2 with ⟨c0, hc0⟩
  have hc0id : c0.id = σ.currentID := get_eq_some_id hc0
  have hptid : pt.id = t := get_eq_some_id hget
  set f : Process → Process :=
    fun c => { c with wait := some pt.id, state := ProcState.Waiting } with hf
  set σ1 : KernelState := ProcessManager.schedule (updateProc σ σ.currentID f) with hσ1
  have hgetσ1 : ProcessManager.get σ1 σ.currentID = some (f c0) := by
    rw [hσ1, get_schedule, get_updateProc σ σ.currentID σ.currentID f (fun q _ => rfl), hc0]
    simp [hc0id]
  refine ⟨σ1, ?_, rfl, ⟨f c0, hgetσ1, rfl, by simp [hf, hptid]⟩, ?_, ?_⟩
  · simp [ProcessCtlHandler, resolveTarget, hts, hget, dispatchArm, hσ1]
  · intro τ hnd c hgetc hw
    exact scheduleSelect_not_waiting hnd hgetc hw
  · refine ⟨{ f c0 with state := ProcState.Ready, wait := some status }, ?_, rfl, rfl, rfl⟩
    rw [get_remove σ1 t status σ.currentID hne, hgetσ1]
    simp [hf, hptid]

/-- Witness for C1: process 0 waits on process 1 in the example state;
after `remove(1, 42)` it is Ready and observes exit status 42. -/
theorem waitPidBlocksUntilRemoveWitness :
    ∃ σ₁,
      ProcessCtlHandler σEx 1 ProcessOperation.WaitPID 0 0 = some (APIResult.Suspended, σ₁) ∧
      σ₁.scheduleCount = σEx.scheduleCount + 1 ∧
      (∃ c, ProcessManager.get σ₁ 0 = some c ∧
         c.state = ProcState.Waiting ∧ c.wait = some 1) ∧
      (∀ τ : KernelState, (τ.procs.map (fun q => q.id)).Nodup →
         ∀ c, ProcessManager.get τ 0 = some c → c.state = ProcState.Waiting →
         scheduleSelect τ ≠ some 0) ∧
      (∃ c', ProcessManager.get (ProcessManager.remove σ₁ 1 42) 0 = some c' ∧
         c'.state = ProcState.Ready ∧ c'.wait = some 42 ∧ c'.getWait = 42) :=
  waitPidBlocksUntilRemove σEx 1 pEx1 0 0 42 (by decide) (by decide) (by decide) (by decide)

/-- C5: Resume on a process increments its pending-wakeup counter and
forces it Ready; when that process subsequently becomes current and
executes EnterSleep, the pending wakeup makes `sleep` return
WakeupPending, so the process stays Ready (not Sleeping), stays current,
and the scheduler is not invoked — the wakeup is not lost. -/
theorem resumeThenEnterSleepStaysReady (σ : KernelState) (p : ProcessID) (pp : Process)
    (a o a2 o2 : Nat)
    (hps : p ≠ SELF) (hget : ProcessManager.get σ p = some pp) :
    ∃ σ₁, ProcessCtlHandler σ p ProcessOperation.Resume a o = some (APIResult.Success, σ₁) ∧
      ProcessManager.get σ₁ p = some { pp with wakeups := pp.wakeups + 1, state := ProcState.Ready } ∧
      ∃ σ₃, ProcessCtlHandler { σ₁ with currentID := p } SELF ProcessOperation.EnterSleep a2 o2 =
          some (APIResult.Success, σ₃) ∧
        σ₃.scheduleCount = σ₁.scheduleCount ∧ σ₃.currentID = p ∧
        ProcessManager.get σ₃ p = some { pp with wakeups := 0, state := ProcState.Ready } := by
  have hpid : pp.id = p := get_eq_some_id hget
  set σ1 : KernelState := updateProc σ pp.id Process.wakeup with hσ1
  have hget1 : ProcessManager.get σ1 p = some (Process.wakeup pp) := by
    rw [hσ1, get_updateProc σ pp.id p Process.wakeup (fun q _ => rfl), hget]
    simp
  set σ2 : KernelState := { σ1 with currentID := p } with hσ2
  have hget2 : ProcessManager.get σ2 p = some (Process.wakeup pp) := hget1
  have hcur2 : ProcessManager.current σ2 = Process.wakeup pp := by
    unfold ProcessManager.current
    rw [show σ2.currentID = p from rfl, hget2]
    rfl
  set c : Process := { Process.wakeup pp with wakeups := 0 } with hc
  have hsleep : (ProcessManager.current σ2).sleep a2 = (ProcResult.WakeupPending, c) := by
    rw [hcur2]
    unfold Process.sleep
    rw [if_pos (by simp [Process.wakeup])]
  set σ3 : KernelState := updateProc σ2 σ2.currentID (fun _ => c) with hσ3
  refine ⟨σ1, ?_, hget1, σ3, ?_, rfl, rfl, ?_⟩
  · simp [ProcessCtlHandler, resolveTarget, hps, hget, dispatchArm, hσ1]
  · simp [ProcessCtlHandler, resolveTarget, dispatchArm, hsleep, hσ3]
  · rw [hσ3, show σ2.currentID = p from rfl,
        get_updateProc σ2 p p (fun _ => c) (fun q hq => by rw [hc]; simp [Process.wakeup, hpid, hq]),
        hget2]
    simp [hc, Process.wakeup]
    exact hpid

/-- Witness for C5: Resume on process 1 of the example state, followed by
process 1 running EnterSleep, leaves process 1 Ready with the wakeup
consumed and the scheduler untouched. -/
theorem resumeThenEnterSleepStaysReadyWitness :
    ∃ σ₁, ProcessCtlHandler σEx 1 ProcessOperation.Resume 0 0 = some (APIResult.Success, σ₁) ∧
      ProcessManager.get σ₁ 1 = some { pEx1 with wakeups := 1, state := ProcState.Ready } ∧
      ∃ σ₃, ProcessCtlHandler { σ₁ with currentID := 1 } SELF ProcessOperation.EnterSleep 0 0 =
          some (APIResult.Success, σ₃) ∧
        σ₃.scheduleCount = σ₁.scheduleCount ∧ σ₃.currentID = 1 ∧
        ProcessManager.get σ₃ 1 = some { pEx1 with wakeups := 0, state := ProcState.Ready } :=
  resumeThenEnterSleepStaysReady σEx 1 pEx1 0 0 0 0 (by decide) (by decide)

/-- The invariant exactly as the spec states it: a process has a wait
target recorded (a non-empty wait field) if and only if it is in the
Waiting state. -/
def WaitIffWaiting (σ : KernelState) : Prop :=
  ∀ q ∈ σ.procs, (q.state = ProcState.Waiting ↔ q.wait.isSome)

instance (σ : KernelState) : Decidable (WaitIffWaiting σ) := by
  unfold WaitIffWaiting; infer_instance

/-- The direction of the invariant that the code does maintain: every
Waiting process has a wait value recorded. -/
def WaitingHasWait (σ : KernelState) : Prop :=
  ∀ q ∈ σ.procs, q.state = ProcState.Waiting → q.wait.isSome

instance (σ : KernelState) : Decidable (WaitingHasWait σ) := by
  unfold WaitingHasWait; infer_instance

theorem waitingHasWait_updateProc {σ : KernelState} {i : ProcessID} {f : Process → Process}
    (h : WaitingHasWait σ)
    (hf : ∀ q : Process, (q.state = ProcState.Waiting → q.wait.isSome) →
        ((f q).state = ProcState.Waiting → (f q).wait.isSome)) :
    WaitingHasWait (updateProc σ i f) := by
  intro q' hq'
  rcases List.mem_map.mp hq' with ⟨q, hq, rfl⟩
  by_cases hqi : q.id = i
  · simp only [if_pos hqi]
    exact hf q (h q hq)
  · simp only [if_neg hqi]
    exact h q hq

theorem waitingHasWait_schedule {σ : KernelState} (h : WaitingHasWait σ) :
    WaitingHasWait (ProcessManager.schedule σ) :=
  h

theorem waitingHasWait_remove {σ : KernelState} (t : ProcessID) (s : Nat)
    (h : WaitingHasWait σ) : WaitingHasWait (ProcessManager.remove σ t s) := by
  intro q' hq'
  rcases List.mem_map.mp hq' with ⟨q, hqf, rfl⟩
  have hq : q ∈ σ.procs := List.mem_of_mem_filter hqf
  by_cases hcond : q.state = ProcState.Waiting ∧ q.wait = some t
  · simp [hcond]
  · simp only [if_neg hcond]
    exact h q hq

theorem waitingHasWait_current {σ : KernelState} (h : WaitingHasWait σ) :
    (ProcessManager.current σ).state = ProcState.Waiting →
      (ProcessManager.current σ).wait.isSome := by
  unfold ProcessManager.current
  cases hg : ProcessManager.get σ σ.currentID with
  | none =>
      intro hw
      exact absurd hw (by decide)
  | some c =>
      intro hw
      exact h c (mem_of_get hg) hw

/-- C8 (amended): every dispatcher operation preserves the forward
direction of the invariant — every Waiting process has a wait value
recorded.  (The converse direction is not an invariant: see the
counterexample, where a released waiter is Ready while its wait field
still holds the exit status.) -/
theorem waitingImpliesWaitRecordedPreserved (σ : KernelState) (pid : ProcessID)
    (action : ProcessOperation) (addr out : Nat) (r : APIResult) (σ' : KernelState)
    (hinv : WaitingHasWait σ)
    (h : ProcessCtlHandler σ pid action addr out = some (r, σ')) :
    WaitingHasWait σ' := by
  unfold ProcessCtlHandler at h
  cases hres : resolveTarget σ pid action with
  | notFound =>
      rw [hres] at h
      injection h with h
      injection h with h1 h2
      rw [← h2]
      exact hinv
  | target proc? =>
      rw [hres] at h
      clear hres
      set proc : Process := proc?.getD default with hproc
      cases action with
      | Spawn =>
          simp only [dispatchArm] at h
          cases hc : ProcessManager.create σ addr with
          | none => rw [hc] at h; cases h
          | some pr =>
              rw [hc] at h
              obtain ⟨newP, σ₁⟩ := pr
              simp only at h
              injection h with h
              injection h with h1 h2
              unfold ProcessManager.create at hc
              by_cases hfull : σ.procs.length ≥ MAX_PROCS
              · rw [if_pos hfull] at hc; cases hc
              · rw [if_neg hfull] at hc
                simp only [Option.some.injEq, Prod.mk.injEq] at hc
                obtain ⟨hn, hs⟩ := hc
                subst hn
                subst hs
                rw [← h2]
                refine waitingHasWait_updateProc ?_ (fun q hq => hq)
                intro q hq
                rcases List.mem_append.mp hq with hq1 | hq1
                · exact hinv q hq1
                · rcases List.mem_singleton.mp hq1 with rfl
                  intro hw
                  exact absurd hw (by simp)
      | KillPID =>
          simp only [dispatchArm] at h
          injection h with h
          injection h with h1 h2
          rw [← h2]
          exact waitingHasWait_schedule (waitingHasWait_remove _ _ hinv)
      | GetPID =>
          simp only [dispatchArm] at h
          injection h with h
          injection h with h1 h2
          rw [← h2]
          exact hinv
      | GetParent =>
          simp only [dispatchArm] at h
          injection h with h
          injection h with h1 h2
          rw [← h2]
          exact hinv
      | Schedule =>
          simp only [dispatchArm] at h
          injection h with h
          injection h with h1 h2
          rw [← h2]
          exact waitingHasWait_schedule hinv
      | Resume =>
          simp only [dispatchArm] at h
          injection h with h
          injection h with h1 h2
          rw [← h2]
          refine waitingHasWait_updateProc hinv (fun q hq => ?_)
          intro hw
          exact absurd hw (by simp [Process.wakeup])
      | WatchIRQ =>
          simp only [dispatchArm] at h
          injection h with h
          injection h with h1 h2
          rw [← h2]
          exact hinv
      | EnableIRQ =>
          simp only [dispatchArm] at h
          injection h with h
          injection h with h1 h2
          rw [← h2]
          exact hinv
      | DisableIRQ =>
          simp only [dispatchArm] at h
          injection h with h
          injection h with h1 h2
          rw [← h2]
          exact hinv
      | InfoPID =>
          simp only [dispatchArm] at h
          injection h with h
          injection h with h1 h2
          rw [← h2]
          exact hinv
      | WaitPID =>
          simp only [dispatchArm] at h
          injection h with h
          injection h with h1 h2
          rw [← h2]
          refine waitingHasWait_schedule (waitingHasWait_updateProc hinv (fun q hq => ?_))
          intro hw
          simp
      | InfoTimer =>
          simp only [dispatchArm] at h
          cases ht : σ.timer with
          | none =>
              rw [ht] at h
              injection h with h
              injection h with h1 h2
              rw [← h2]
              exact hinv
          | some tv =>
              rw [ht] at h
              injection h with h
              injection h with h1 h2
              rw [← h2]
              exact hinv
      | WaitTimer =>
          simp only [dispatchArm] at h
          injection h with h
          injection h with h1 h2
          rw [← h2]
          refine waitingHasWait_schedule (waitingHasWait_updateProc hinv (fun q hq => ?_))
          intro hw
          exact absurd hw (by simp [Process.setSleepTimer])
      | EnterSleep =>
          simp only [dispatchArm] at h
          have hphi := waitingHasWait_current hinv
          cases hs : (ProcessManager.current σ).sleep addr with
          | mk res c =>
              have hc2 : (c.state = ProcState.Waiting → c.wait.isSome) := by
                unfold Process.sleep at hs
                by_cases hwk : (ProcessManager.current σ).wakeups > 0
                · rw [if_pos hwk] at hs
                  injection hs with hs1 hs2
                  rw [← hs2]
                  exact hphi
                · rw [if_neg hwk] at hs
                  injection hs with hs1 hs2
                  rw [← hs2]
                  intro hw
                  exact absurd hw (by simp)
              cases res with
              | Success =>
                  rw [hs] at h
                  injection h with h
                  injection h with h1 h2
                  rw [← h2]
                  exact waitingHasWait_schedule
                    (waitingHasWait_updateProc hinv (fun q hq => hc2))
              | WakeupPending =>
                  rw [hs] at h
                  injection h with h
                  injection h with h1 h2
                  rw [← h2]
                  exact waitingHasWait_updateProc hinv (fun q hq => hc2)
      | SetStack =>
          simp only [dispatchArm] at h
          injection h with h
          injection h with h1 h2
          rw [← h2]
          refine waitingHasWait_updateProc hinv (fun q hq => ?_)
          intro hw
          exact hq hw

/-- State obtained from the example state by KillPID on process 1 with
exit status 42: the waiter (process 2) is released to Ready but its wait
field still holds the recorded exit status. -/
def σExKilled : KernelState :=
  { procs := [pEx0, { pEx2 with state := ProcState.Ready, wait := some 42 }],
    currentID := 2, nextID := 3, scheduleCount := 1,
    hooks := [], irqCtl := [], timer := some 7, writes := [] }

/-- C8 counterexample: the biconditional invariant ("wait target recorded
iff Waiting") holds in the example state, yet after the dispatcher runs
KillPID on process 1 (which removes it and resumes its waiter), process 2
is Ready while its wait field holds `some 42` — so the iff invariant is
not preserved by every dispatcher operation. -/
theorem waitIffWaitingCounterexample :
    WaitIffWaiting σEx ∧
    ProcessCtlHandler σEx 1 ProcessOperation.KillPID 42 0 = some (APIResult.Success, σExKilled) ∧
    ¬ WaitIffWaiting σExKilled := by
  decide

/-- Witness for C8 (amended): the forward direction survives the KillPID
step of the counterexample state. -/
theorem waitingImpliesWaitRecordedPreservedWitness : WaitingHasWait σExKilled :=
  waitingImpliesWaitRecordedPreserved σEx 1 ProcessOperation.KillPID 42 0 APIResult.Success
    σExKilled (by decide) (by decide)
